import Mathlib

/-!
Verification of the TextAnimate component
(src/registry/default/magicui/text-animate.tsx).

The component is a pure function from a configuration record to a rendered
tree: it splits its text into segments according to a granularity, selects a
pair of animation variant descriptors (container and item) from a fixed
preset table, and attaches per-segment stagger offsets.  We embed the
segmenters, the preset table and the body of the component as executable
Lean definitions over lists of characters, with seconds represented exactly
as rational numbers, and prove the specified properties about them.
-/

namespace TextAnimateVerif

/-- Granularity of the split, mirroring the source union type
`AnimationType = "text" | "word" | "character" | "line"`. -/
inductive AnimationType : Type where
  | text
  | word
  | character
  | line
  deriving DecidableEq

/-- Preset names, mirroring the source union type `AnimationVariant`. -/
inductive AnimationVariant : Type where
  | fadeIn
  | blurIn
  | blurInUp
  | blurInDown
  | slideUp
  | slideDown
  | slideLeft
  | slideRight
  | scaleUp
  | scaleDown
  deriving DecidableEq

/-- The character class matched by the JavaScript regular-expression class
`\s`: tab through carriage return, space, NBSP, and the Unicode space
separators together with the line and paragraph separators, narrow NBSP,
medium mathematical space, ideographic space and the BOM. -/
def isJsWhitespace (c : Char) : Bool :=
  let n := c.toNat
  (9 ≤ n && n ≤ 13) || n == 32 || n == 160 || n == 0x1680 ||
    (0x2000 ≤ n && n ≤ 0x200A) || n == 0x2028 || n == 0x2029 ||
    n == 0x202F || n == 0x205F || n == 0x3000 || n == 0xFEFF

/-- Embedding of the source expression `children.split(/(\s+)/)` (the `word`
branch of the segmenter).  JavaScript string split on a regular expression
with one capturing group cuts the string at every maximal run matched by the
pattern and keeps each captured run in the result, so the output alternates
maximal non-whitespace chunks (possibly empty at either boundary) with the
maximal whitespace runs that separate them: for instance splitting the text
consisting of one space yields an empty chunk, the space, and another empty
chunk.  The recursion prepends one character at a time: a non-whitespace
character extends the leading chunk, while a whitespace character merges with
the following whitespace run when the leading chunk is empty and otherwise
opens a fresh run preceded by a fresh empty chunk. -/
def wordSplit : List Char → List (List Char)
  | [] => [[]]
  | c :: cs =>
    match wordSplit cs with
    | [] => [[c]]
    | s :: rest =>
      if isJsWhitespace c then
        match s, rest with
        | [], ws :: rest' => [] :: (c :: ws) :: rest'
        | _, _ => [] :: [c] :: s :: rest
      else
        (c :: s) :: rest

/-- Embedding of the source expression `children.split("\n")` (the `line`
branch of the segmenter): cut at every newline character, dropping the
newline characters themselves and keeping empty pieces, so the number of
pieces is one more than the number of newlines. -/
def lineSplit : List Char → List (List Char)
  | [] => [[]]
  | c :: cs =>
    if c = '\n' then
      [] :: lineSplit cs
    else
      match lineSplit cs with
      | [] => [[c]]
      | s :: rest => (c :: s) :: rest

/-- Embedding of the source expression `children.split("")` (the `character`
branch of the segmenter): one single-character segment per character.  The
source splits at UTF-16 code-unit boundaries; we model code units by `Char`,
which is adequate for the properties proved here (none involves characters
outside the basic multilingual plane). -/
def characterSplit (cs : List Char) : List (List Char) :=
  cs.map (fun c => [c])

/-- The segmenter switch of the component body (the `switch (by)` statement):
`word` splits preserving whitespace runs, `character` splits into single
characters, `line` splits on newlines, and `text` wraps the whole text in a
one-element list. -/
def segmentText (g : AnimationType) (children : List Char) : List (List Char) :=
  match g with
  | AnimationType.word => wordSplit children
  | AnimationType.character => characterSplit children
  | AnimationType.line => lineSplit children
  | AnimationType.text => [children]

/-- The `staggerTimings` table of defaults for the stagger interval, in
seconds, keyed by granularity. -/
def staggerTimings : AnimationType → ℚ
  | AnimationType.text => 0.06
  | AnimationType.word => 0.05
  | AnimationType.character => 0.03
  | AnimationType.line => 0.06

/-- Spring-physics parameters attached to the per-property `scale` override
of the scale presets (`type: "spring", damping: 15, stiffness: 300`). -/
structure SpringConfig : Type where
  damping : ℚ
  stiffness : ℚ
  deriving DecidableEq

/-- The `when` ordering of a container transition: `"beforeChildren"` or
`"afterChildren"`. -/
inductive WhenRel : Type where
  | beforeChildren
  | afterChildren
  deriving DecidableEq

/-- A transition record as it appears in the source variant objects.  Every
field is optional; a field is `none` when the corresponding property is
absent from the object literal.  `yDuration`, `opacityDuration` and
`filterDuration` model the per-property overrides `y: { duration: _ }`,
`opacity: { duration: _ }` and `filter: { duration: _ }` of the blur
presets, and `scaleSpring` models the per-property spring override of the
scale presets.  `when'` models the `when` field of container transitions. -/
structure Transition : Type where
  delay : Option ℚ := none
  duration : Option ℚ := none
  yDuration : Option ℚ := none
  opacityDuration : Option ℚ := none
  filterDuration : Option ℚ := none
  scaleSpring : Option SpringConfig := none
  when' : Option WhenRel := none
  deriving DecidableEq

/-- A variant target: the visual properties set by one named state of a
variant object, plus its optional transition.  The source writes the blur
amount as the string `"blur(10px)"`; we record the pixel amount in `blur`. -/
structure Target : Type where
  opacity : Option ℚ := none
  x : Option ℚ := none
  y : Option ℚ := none
  scale : Option ℚ := none
  blur : Option ℚ := none
  transition : Option Transition := none
  deriving DecidableEq

/-- The `custom` value passed to the container element: the record
`delay, exitDelay` built from the resolved props. -/
structure ContainerCustom : Type where
  delay : ℚ
  exitDelay : ℚ
  deriving DecidableEq

/-- The `custom` value passed to each segment element: the record
`entryStaggerDelay, exitStaggerDelay` computed from the segment index. -/
structure ItemCustom : Type where
  entryStaggerDelay : ℚ
  exitStaggerDelay : ℚ
  deriving DecidableEq

/-- A container variants object: the `hidden` state is a plain target, and
the `show` and `exit` states are functions of the container `custom` record,
as in the source (`show` is a keyword in Lean, hence the primed field
name). -/
structure ContainerVariants : Type where
  hidden : Target
  show' : ContainerCustom → Target
  exit : ContainerCustom → Target

/-- An item variants object: the `hidden` state is a plain target, and the
`show` and `exit` states are functions of the item `custom` record.  The
source's static item variants (objects rather than functions) are embedded
as constant functions, matching the engine's treatment of non-function
variants, which ignore `custom`. -/
structure ItemVariants : Type where
  hidden : Target
  show' : ItemCustom → Target
  exit : ItemCustom → Target

/-- A preset table entry: the pair of container and item variant objects. -/
structure VariantSet : Type where
  container : ContainerVariants
  item : ItemVariants

/-- The source's `defaultContainerVariants`: opaque at rest, a delayed
`beforeChildren` show transition, and an `afterChildren` exit transition
delayed by the exit delay. -/
def defaultContainerVariants : ContainerVariants where
  hidden := { opacity := some 1 }
  show' := fun c =>
    { opacity := some 1
      transition := some { delay := some c.delay, when' := some WhenRel.beforeChildren } }
  exit := fun c =>
    { opacity := some 0
      transition := some { delay := some c.exitDelay, when' := some WhenRel.afterChildren } }

/-- The source's `defaultItemVariants`: the opacity-only fallback item
variants (static objects in the source, hence constant functions here). -/
def defaultItemVariants : ItemVariants where
  hidden := { opacity := some 0 }
  show' := fun _ => { opacity := some 1 }
  exit := fun _ => { opacity := some 0 }

/-- The source's `defaultItemAnimationVariants` preset table, transcribed
entry by entry.  Note that the `show` state of `blurInDown` is the only item
`show` state whose transition carries neither a `delay` nor a top-level
`duration` field: it destructures `entryStaggerDelay` but never uses it. -/
def defaultItemAnimationVariants : AnimationVariant → VariantSet
  | AnimationVariant.fadeIn =>
    { container := defaultContainerVariants
      item :=
        { hidden := { opacity := some 0, y := some 20 }
          show' := fun c =>
            { opacity := some 1, y := some 0
              transition := some { delay := some c.entryStaggerDelay, duration := some 0.3 } }
          exit := fun c =>
            { opacity := some 0, y := some 20
              transition := some { delay := some c.exitStaggerDelay, duration := some 0.3 } } } }
  | AnimationVariant.blurIn =>
    { container := defaultContainerVariants
      item :=
        { hidden := { opacity := some 0, blur := some 10 }
          show' := fun c =>
            { opacity := some 1, blur := some 0
              transition := some { delay := some c.entryStaggerDelay, duration := some 0.3 } }
          exit := fun c =>
            { opacity := some 0, blur := some 10
              transition := some { delay := some c.exitStaggerDelay, duration := some 0.3 } } } }
  | AnimationVariant.blurInUp =>
    { container := defaultContainerVariants
      item :=
        { hidden := { opacity := some 0, blur := some 10, y := some 20 }
          show' := fun c =>
            { opacity := some 1, blur := some 0, y := some 0
              transition := some
                { delay := some c.entryStaggerDelay, duration := some 0.3
                  yDuration := some 0.3, opacityDuration := some 0.4
                  filterDuration := some 0.3 } }
          exit := fun c =>
            { opacity := some 0, blur := some 10, y := some 20
              transition := some
                { delay := some c.exitStaggerDelay, duration := some 0.3
                  yDuration := some 0.3, opacityDuration := some 0.4
                  filterDuration := some 0.3 } } } }
  | AnimationVariant.blurInDown =>
    { container := defaultContainerVariants
      item :=
        { hidden := { opacity := some 0, blur := some 10, y := some (-20) }
          show' := fun _ =>
            { opacity := some 1, blur := some 0, y := some 0
              transition := some
                { yDuration := some 0.3, opacityDuration := some 0.4
                  filterDuration := some 0.3 } }
          exit := fun c =>
            { opacity := some 0, blur := some 10, y := some (-20)
              transition := some
                { delay := some c.exitStaggerDelay, duration := some 0.3
                  yDuration := some 0.3, opacityDuration := some 0.4
                  filterDuration := some 0.3 } } } }
  | AnimationVariant.slideUp =>
    { container := defaultContainerVariants
      item :=
        { hidden := { y := some 20, opacity := some 0 }
          show' := fun c =>
            { y := some 0, opacity := some 1
              transition := some { delay := some c.entryStaggerDelay, duration := some 0.3 } }
          exit := fun c =>
            { y := some (-20), opacity := some 0
              transition := some { delay := some c.exitStaggerDelay, duration := some 0.3 } } } }
  | AnimationVariant.slideDown =>
    { container := defaultContainerVariants
      item :=
        { hidden := { y := some (-20), opacity := some 0 }
          show' := fun c =>
            { y := some 0, opacity := some 1
              transition := some { delay := some c.entryStaggerDelay, duration := some 0.3 } }
          exit := fun c =>
            { y := some 20, opacity := some 0
              transition := some { delay := some c.exitStaggerDelay, duration := some 0.3 } } } }
  | AnimationVariant.slideLeft =>
    { container := defaultContainerVariants
      item :=
        { hidden := { x := some 20, opacity := some 0 }
          show' := fun c =>
            { x := some 0, opacity := some 1
              transition := some { delay := some c.entryStaggerDelay, duration := some 0.3 } }
          exit := fun c =>
            { x := some (-20), opacity := some 0
              transition := some { delay := some c.exitStaggerDelay, duration := some 0.3 } } } }
  | AnimationVariant.slideRight =>
    { container := defaultContainerVariants
      item :=
        { hidden := { x := some (-20), opacity := some 0 }
          show' := fun c =>
            { x := some 0, opacity := some 1
              transition := some { delay := some c.entryStaggerDelay, duration := some 0.3 } }
          exit := fun c =>
            { x := some 20, opacity := some 0
              transition := some { delay := some c.exitStaggerDelay, duration := some 0.3 } } } }
  | AnimationVariant.scaleUp =>
    { container := defaultContainerVariants
      item :=
        { hidden := { scale := some 0.5, opacity := some 0 }
          show' := fun c =>
            { scale := some 1, opacity := some 1
              transition := some
                { delay := some c.entryStaggerDelay, duration := some 0.3
                  scaleSpring := some { damping := 15, stiffness := 300 } } }
          exit := fun c =>
            { scale := some 0.5, opacity := some 0
              transition := some { delay := some c.exitStaggerDelay, duration := some 0.3 } } } }
  | AnimationVariant.scaleDown =>
    { container := defaultContainerVariants
      item :=
        { hidden := { scale := some 1.5, opacity := some 0 }
          show' := fun c =>
            { scale := some 1, opacity := some 1
              transition := some
                { delay := some c.entryStaggerDelay, duration := some 0.3
                  scaleSpring := some { damping := 15, stiffness := 300 } } }
          exit := fun c =>
            { scale := some 1.5, opacity := some 0
              transition := some { delay := some c.exitStaggerDelay, duration := some 0.3 } } } }

/-- The `finalVariants` computation of the component body.  After default
resolution `animation` always holds a preset name (every value of the source
union is a non-empty, hence truthy, string), so the ternary always takes the
preset branch and the caller-supplied `variants` prop is never consulted.
Within that branch the source spreads `container.show` and `container.exit`
of the preset — which are function values, so the spread contributes no
object properties — and then writes a `transition` property, so the computed
`show` and `exit` targets consist of the new transition alone. -/
def finalVariants (animation : AnimationVariant) : VariantSet where
  container :=
    { hidden := (defaultItemAnimationVariants animation).container.hidden
      show' := fun c =>
        { transition := some { delay := some c.delay, when' := some WhenRel.beforeChildren } }
      exit := fun c =>
        { transition := some { delay := some c.exitDelay, when' := some WhenRel.afterChildren } } }
  item := (defaultItemAnimationVariants animation).item

/-- The component props relevant to the verified behavior, before default
resolution: `none` stands for an omitted (undefined) prop and the
destructuring defaults of the source are applied by `textAnimate`.  The
purely presentational props `className`, `segmentClassName` and `as` only
choose class strings and the rendered element kind and are not modeled.
`by` is a Lean keyword, hence the primed field name. -/
structure TextAnimateProps : Type where
  children : List Char
  delay : Option ℚ := none
  exitDelay : Option ℚ := none
  duration : Option ℚ := none
  variants : Option ItemVariants := none
  startOnView : Option Bool := none
  once : Option Bool := none
  by' : Option AnimationType := none
  staggerChildren : Option ℚ := none
  animation : Option AnimationVariant := none

/-- The stagger interval the component ends up using: the `staggerChildren`
prop when supplied, and otherwise the `staggerTimings` default for the
resolved granularity — exactly the destructuring default
`staggerChildren = staggerTimings[by]` of the source, which is evaluated
after `by = "word"`. -/
def effectiveStagger (p : TextAnimateProps) : ℚ :=
  p.staggerChildren.getD (staggerTimings (p.by'.getD AnimationType.word))

/-- Embedding of `Array.prototype.map` with the element index, starting the
index at `k`. -/
def mapWithIndexFrom {α β : Type} (f : ℕ → α → β) : ℕ → List α → List β
  | _, [] => []
  | i, a :: l => f i a :: mapWithIndexFrom f (i + 1) l

/-- Embedding of `Array.prototype.map` with the element index. -/
def mapWithIndex {α β : Type} (f : ℕ → α → β) (l : List α) : List β :=
  mapWithIndexFrom f 0 l

/-- One rendered segment element: its text, the `custom` stagger record
handed to the item variants, and the item variants object itself. -/
structure RenderedSegment : Type where
  segment : List Char
  custom : ItemCustom
  variants : ItemVariants

/-- The rendered tree: the container element with its variants and `custom`
record, the visibility flags, and one child per segment. -/
structure RenderedTree : Type where
  containerVariants : ContainerVariants
  containerCustom : ContainerCustom
  startOnView : Bool
  once : Bool
  items : List RenderedSegment

/-- Shallow embedding of the `TextAnimate` component body: resolve the
destructuring defaults, compute `finalVariants`, segment the text, and build
the rendered tree.  The resolved `duration` is bound but, exactly as in the
source, never read afterwards; likewise the `variants` prop is never
consulted (see `finalVariants`). -/
def textAnimate (p : TextAnimateProps) : RenderedTree :=
  let delay := p.delay.getD 0
  let exitDelay := p.exitDelay.getD 0
  let _duration := p.duration.getD 0.3
  let startOnView := p.startOnView.getD true
  let once := p.once.getD false
  let by' := p.by'.getD AnimationType.word
  let staggerChildren := p.staggerChildren.getD (staggerTimings by')
  let animation := p.animation.getD AnimationVariant.fadeIn
  let fv := finalVariants animation
  let segments := segmentText by' p.children
  { containerVariants := fv.container
    containerCustom := { delay := delay, exitDelay := exitDelay }
    startOnView := startOnView
    once := once
    items := mapWithIndex (fun i segment =>
      { segment := segment
        custom :=
          { entryStaggerDelay := (i : ℚ) * staggerChildren
            exitStaggerDelay := ((segments.length : ℚ) - (i : ℚ) - 1) * staggerChildren }
        variants := fv.item }) segments }

/- Sanity checks of the word splitter against concrete JavaScript outputs of
`s.split(/(\s+)/)`. -/

theorem wordSplit_empty : wordSplit [] = [[]] := rfl

theorem wordSplit_single_space : wordSplit [' '] = [[], [' '], []] := rfl

theorem wordSplit_leading_space : wordSplit [' ', 'a'] = [[], [' '], ['a']] := rfl

theorem wordSplit_trailing_space : wordSplit ['a', ' '] = [['a'], [' '], []] := rfl

theorem wordSplit_two_words :
    wordSplit ['a', ' ', ' ', 'b'] = [['a'], [' ', ' '], ['b']] := rfl

theorem lineSplit_two_lines : lineSplit ['a', '\n', 'b'] = [['a'], ['b']] := rfl

theorem lineSplit_lone_newline : lineSplit ['\n'] = [[], []] := rfl

/-- Concatenating the pieces produced by the word splitter restores the
input; the whitespace runs kept as segments supply exactly the characters
dropped between chunks. -/
theorem wordSplit_flatten (cs : List Char) : (wordSplit cs).flatten = cs := by
  induction cs with
  | nil => rfl
  | cons c cs ih =>
    simp only [wordSplit]
    cases hws : wordSplit cs with
    | nil =>
      rw [hws] at ih
      simp only [List.flatten_nil] at ih
      simp [← ih]
    | cons s rest =>
      rw [hws] at ih
      by_cases hc : isJsWhitespace c
      · simp only [hc, if_true]
        cases s with
        | nil =>
          cases rest with
          | nil => simp_all
          | cons ws rest' => simp_all
        | cons a s' => simp_all
      · simp only [hc, if_false]
        simp_all

theorem lineSplit_ne_nil (cs : List Char) : lineSplit cs ≠ [] := by
  cases cs with
  | nil => simp [lineSplit]
  | cons c cs =>
    simp only [lineSplit]
    split
    · simp
    · split <;> simp

theorem intercalate_cons_cons (sep a b : List Char) (l : List (List Char)) :
    List.intercalate sep (a :: b :: l) = a ++ sep ++ List.intercalate sep (b :: l) := by
  simp [List.intercalate, List.append_assoc]

/-- Re-joining the pieces produced by the line splitter with a newline
between consecutive pieces restores the input exactly. -/
theorem lineSplit_intercalate (cs : List Char) :
    List.intercalate ['\n'] (lineSplit cs) = cs := by
  induction cs with
  | nil => rfl
  | cons c cs ih =>
    obtain ⟨s, rest, hsr⟩ : ∃ s rest, lineSplit cs = s :: rest := by
      cases h : lineSplit cs with
      | nil => exact absurd h (lineSplit_ne_nil cs)
      | cons s rest => exact ⟨s, rest, rfl⟩
    rw [hsr] at ih
    by_cases hc : c = '\n'
    · subst hc
      have h1 : lineSplit ('\n' :: cs) = [] :: lineSplit cs := by
        simp [lineSplit]
      rw [h1, hsr, intercalate_cons_cons]
      simp [ih]
    · have h1 : lineSplit (c :: cs) = (c :: s) :: rest := by
        simp only [lineSplit, if_neg hc, hsr]
      rw [h1]
      cases rest with
      | nil =>
        simp only [List.intercalate, List.intersperse_single, List.flatten] at ih ⊢
        simpa using ih
      | cons b l =>
        rw [intercalate_cons_cons] at ih ⊢
        simp [← ih]

/-- On whitespace-free input the word splitter returns the whole input as a
single chunk. -/
theorem wordSplit_no_whitespace (cs : List Char)
    (h : ∀ c ∈ cs, isJsWhitespace c = false) :
    wordSplit cs = [cs] := by
  induction cs with
  | nil => rfl
  | cons c cs ih =>
    have hc : isJsWhitespace c = false := h c (List.mem_cons_self c cs)
    have hcs : ∀ x ∈ cs, isJsWhitespace x = false := fun x hx =>
      h x (List.mem_cons_of_mem c hx)
    simp [wordSplit, ih hcs, hc]

theorem mapWithIndexFrom_length {α β : Type} (f : ℕ → α → β) (k : ℕ) (l : List α) :
    (mapWithIndexFrom f k l).length = l.length := by
  induction l generalizing k with
  | nil => rfl
  | cons a l ih => simp [mapWithIndexFrom, ih]

theorem map_mapWithIndexFrom {α β γ : Type} (f : ℕ → α → β) (g : β → γ) (h : ℕ → γ)
    (hfg : ∀ i a, g (f i a) = h i) (k : ℕ) (l : List α) :
    (mapWithIndexFrom f k l).map g = (List.range' k l.length).map h := by
  induction l generalizing k with
  | nil => rfl
  | cons a l ih => simp [mapWithIndexFrom, List.range'_succ, hfg, ih]

/-- The item list of the rendered tree, written with the resolved stagger
interval made explicit; holds by unfolding `textAnimate`. -/
theorem textAnimate_items (p : TextAnimateProps) :
    (textAnimate p).items
      = mapWithIndex
          (fun i segment =>
            { segment := segment
              custom :=
                { entryStaggerDelay := (i : ℚ) * effectiveStagger p
                  exitStaggerDelay :=
                    (((segmentText (p.by'.getD AnimationType.word) p.children).length : ℚ)
                        - (i : ℚ) - 1) * effectiveStagger p }
              variants := (finalVariants (p.animation.getD AnimationVariant.fadeIn)).item })
          (segmentText (p.by'.getD AnimationType.word) p.children) := rfl

/-- An arbitrary custom variants object distinct from every preset's item
variants: its hidden state rises from a 5 pixel offset instead of 20. -/
def customVariantsExample : ItemVariants where
  hidden := { opacity := some 0, y := some 5 }
  show' := fun _ => { opacity := some 1, y := some 0 }
  exit := fun _ => { opacity := some 0, y := some 5 }

/-- C1: refuted — the caller-supplied `variants` prop never governs the
rendered animation descriptors.  The rendered tree is identical whether or
not custom variants are supplied, and a configuration supplying custom
variants still renders the `fadeIn` preset's item descriptors (hidden state
opacity 0, y 20) rather than the supplied ones. -/
theorem variants_prop_has_no_effect :
    (∀ (p : TextAnimateProps) (v : ItemVariants),
        textAnimate { p with variants := some v } = textAnimate { p with variants := none })
  ∧ (textAnimate { children := "Hi".toList, variants := some customVariantsExample }).items.map
        (fun it => it.variants.hidden)
      = [{ opacity := some 0, y := some 20 }]
  ∧ customVariantsExample.hidden ≠ { opacity := some 0, y := some 20 } :=
  ⟨fun _ _ => rfl, by decide, by decide⟩

/-- Witness for C1's theorem at a concrete configuration. -/
theorem variants_prop_has_no_effect_witness :
    textAnimate { children := ['a'], variants := some customVariantsExample }
      = textAnimate { children := ['a'], variants := none } :=
  variants_prop_has_no_effect.1 { children := ['a'] } customVariantsExample

/-- C2: at word granularity the produced segments (whitespace runs kept as
their own segments) concatenate, in order, to the original text. -/
theorem word_segments_rejoin (cs : List Char) :
    (segmentText AnimationType.word cs).flatten = cs :=
  wordSplit_flatten cs

/-- Witness for C2's theorem at a concrete text. -/
theorem word_segments_rejoin_witness :
    (segmentText AnimationType.word ['a', ' ', 'b']).flatten = ['a', ' ', 'b'] :=
  word_segments_rejoin ['a', ' ', 'b']

/-- C3: refuted as stated — at line granularity the plain concatenation of
the segments does not reconstruct a text containing a newline, since the
newline characters are dropped by the split. -/
theorem line_concat_counterexample :
    (segmentText AnimationType.line ['a', '\n', 'b']).flatten ≠ ['a', '\n', 'b'] := by
  decide

/-- C3 (amended): at line granularity, re-joining the produced segments in
order with a single newline between consecutive segments reconstructs the
original text exactly; the plain concatenation equals the text only when it
contains no newline. -/
theorem line_segments_rejoin_with_newlines (cs : List Char) :
    List.intercalate ['\n'] (segmentText AnimationType.line cs) = cs :=
  lineSplit_intercalate cs

/-- Witness for C3's amended theorem at a concrete text. -/
theorem line_segments_rejoin_with_newlines_witness :
    List.intercalate ['\n'] (segmentText AnimationType.line ['a', '\n', 'b'])
      = ['a', '\n', 'b'] :=
  line_segments_rejoin_with_newlines ['a', '\n', 'b']

/-- C4: in every configuration the entry offset handed to the item
descriptor of the segment at index `i` is `i` times the effective stagger
interval and its exit offset is `(count - i - 1)` times it, so entry offsets
run `0, s, ..., (n-1)s` in index order and exit offsets run in reverse;
concretely, "Hello world" at word granularity yields the three segments
"Hello", " ", "world" with entry offsets 0, 0.05 and 0.10. -/
theorem stagger_offsets_spec :
    (∀ p : TextAnimateProps,
        (textAnimate p).items.map (fun it => it.custom.entryStaggerDelay)
          = (List.range (textAnimate p).items.length).map
              (fun (i : ℕ) => (i : ℚ) * effectiveStagger p)
      ∧ (textAnimate p).items.map (fun it => it.custom.exitStaggerDelay)
          = (List.range (textAnimate p).items.length).map
              (fun (i : ℕ) => (((textAnimate p).items.length : ℚ) - (i : ℚ) - 1)
                  * effectiveStagger p))
  ∧ (textAnimate { children := "Hello world".toList }).items.map (fun it => it.segment)
      = ["Hello".toList, " ".toList, "world".toList]
  ∧ (textAnimate { children := "Hello world".toList }).items.map
        (fun it => it.custom.entryStaggerDelay)
      = [0, 0.05, 0.10] := by
  have key : ∀ p : TextAnimateProps,
      (textAnimate p).items.map (fun it => it.custom.entryStaggerDelay)
        = (List.range (textAnimate p).items.length).map
            (fun (i : ℕ) => (i : ℚ) * effectiveStagger p)
    ∧ (textAnimate p).items.map (fun it => it.custom.exitStaggerDelay)
        = (List.range (textAnimate p).items.length).map
            (fun (i : ℕ) => (((textAnimate p).items.length : ℚ) - (i : ℚ) - 1)
                * effectiveStagger p) := by
    intro p
    constructor
    · simp only [textAnimate_items, mapWithIndex]
      rw [mapWithIndexFrom_length, List.range_eq_range']
      refine map_mapWithIndexFrom _ _ _ (fun i a => ?_) 0 _
      rfl
    · simp only [textAnimate_items, mapWithIndex]
      rw [mapWithIndexFrom_length, List.range_eq_range']
      refine map_mapWithIndexFrom _ _ _ (fun i a => ?_) 0 _
      rfl
  refine ⟨key, by decide, ?_⟩
  have h1 := (key { children := "Hello world".toList }).1
  have hlen : (textAnimate
      ({ children := "Hello world".toList } : TextAnimateProps)).items.length = 3 := by
    decide
  have hs : effectiveStagger { children := "Hello world".toList } = 0.05 := rfl
  rw [h1]
  simp only [hlen, hs]
  norm_num [List.range_succ]

/-- C5: the `blurInDown` preset breaks the per-preset timing law — its show
state's transition carries neither a delay equal to the entry offset nor a
top-level duration (the function even binds the entry offset without using
it), while its exit state and, for contrast, the `fadeIn` show state do set
the delay from the corresponding offset. -/
theorem blurInDown_show_missing_delay :
    (∀ c : ItemCustom,
        ((defaultItemAnimationVariants AnimationVariant.blurInDown).item.show' c).transition
          = some { yDuration := some 0.3, opacityDuration := some 0.4,
                   filterDuration := some 0.3 })
  ∧ (∀ c : ItemCustom,
        ((defaultItemAnimationVariants AnimationVariant.blurInDown).item.exit c).transition.bind
            (fun t => t.delay)
          = some c.exitStaggerDelay)
  ∧ (∀ c : ItemCustom,
        ((defaultItemAnimationVariants AnimationVariant.fadeIn).item.show' c).transition.bind
            (fun t => t.delay)
          = some c.entryStaggerDelay) :=
  ⟨fun _ => rfl, fun _ => rfl, fun _ => rfl⟩

/-- Witness for C5's theorem at a concrete stagger offset pair. -/
theorem blurInDown_show_missing_delay_witness :
    ((defaultItemAnimationVariants AnimationVariant.blurInDown).item.show'
          { entryStaggerDelay := 0.05, exitStaggerDelay := 0 }).transition
      = some { yDuration := some 0.3, opacityDuration := some 0.4,
               filterDuration := some 0.3 } :=
  blurInDown_show_missing_delay.1 { entryStaggerDelay := 0.05, exitStaggerDelay := 0 }

/-- C6: omitting the stagger interval makes the effective interval equal the
per-granularity default — 0.05 for word, 0.03 for character, 0.06 for text
and line — and supplying it overrides the default. -/
theorem stagger_interval_defaults :
    (∀ p : TextAnimateProps, p.staggerChildren = none →
        effectiveStagger p = staggerTimings (p.by'.getD AnimationType.word))
  ∧ staggerTimings AnimationType.word = 0.05
  ∧ staggerTimings AnimationType.character = 0.03
  ∧ staggerTimings AnimationType.text = 0.06
  ∧ staggerTimings AnimationType.line = 0.06
  ∧ (∀ (p : TextAnimateProps) (s : ℚ), p.staggerChildren = some s →
        effectiveStagger p = s) := by
  refine ⟨fun p hp => ?_, rfl, rfl, rfl, rfl, fun p s hp => ?_⟩
  · simp [effectiveStagger, hp]
  · simp [effectiveStagger, hp]

/-- Witness for C6's theorem at a concrete configuration omitting the
stagger interval. -/
theorem stagger_interval_defaults_witness :
    effectiveStagger { children := ['a'] }
      = staggerTimings (({ children := ['a'] } : TextAnimateProps).by'.getD
          AnimationType.word) :=
  stagger_interval_defaults.1 { children := ['a'] } rfl

/-- C7: refuted — the `duration` prop never reaches the rendered animation
descriptors.  The rendered tree is identical whether or not a duration is
supplied, and a configuration supplying duration 0.5 still renders item show
transitions with the preset's built-in duration 0.3. -/
theorem duration_prop_has_no_effect :
    (∀ (p : TextAnimateProps) (d : ℚ),
        textAnimate { p with duration := some d } = textAnimate { p with duration := none })
  ∧ (textAnimate { children := "Hi".toList, duration := some 0.5 }).items.map
        (fun it =>
          ((it.variants.show' { entryStaggerDelay := 0, exitStaggerDelay := 0 }).transition.bind
            (fun t => t.duration)))
      = [some 0.3] :=
  ⟨fun _ _ => rfl, rfl⟩

/-- Witness for C7's theorem at a concrete configuration. -/
theorem duration_prop_has_no_effect_witness :
    textAnimate { children := ['a'], duration := some 0.5 }
      = textAnimate { children := ['a'], duration := none } :=
  duration_prop_has_no_effect.1 { children := ['a'] } 0.5

/-- C8: refuted as stated — for the single-character text consisting of one
space, switching from word to character granularity strictly decreases the
segment count (from three to one) instead of increasing it or leaving it
equal. -/
theorem word_to_character_counterexample :
    ¬ ((segmentText AnimationType.word [' ']).length
          < (segmentText AnimationType.character [' ']).length
        ∨ (segmentText AnimationType.word [' ']).length
            = (segmentText AnimationType.character [' ']).length) := by
  decide

/-- C8 (amended): for every nonempty text containing no whitespace,
switching from word to character granularity never decreases the segment
count, and leaves it equal exactly when the text is a single character. -/
theorem word_to_character_count_nonwhitespace (cs : List Char) (h1 : cs ≠ [])
    (h2 : ∀ c ∈ cs, isJsWhitespace c = false) :
    (segmentText AnimationType.word cs).length
        ≤ (segmentText AnimationType.character cs).length
    ∧ ((segmentText AnimationType.word cs).length
          = (segmentText AnimationType.character cs).length
        ↔ cs.length = 1) := by
  have hw : segmentText AnimationType.word cs = [cs] := wordSplit_no_whitespace cs h2
  have hc : (segmentText AnimationType.character cs).length = cs.length := by
    simp [segmentText, characterSplit]
  rw [hw, hc]
  show 1 ≤ cs.length ∧ (1 = cs.length ↔ cs.length = 1)
  exact ⟨List.length_pos.mpr h1, eq_comm⟩

/-- Witness for C8's amended theorem at a concrete two-character text. -/
theorem word_to_character_count_nonwhitespace_witness :
    (segmentText AnimationType.word ['a', 'b']).length
        ≤ (segmentText AnimationType.character ['a', 'b']).length
    ∧ ((segmentText AnimationType.word ['a', 'b']).length
          = (segmentText AnimationType.character ['a', 'b']).length
        ↔ (['a', 'b'] : List Char).length = 1) :=
  word_to_character_count_nonwhitespace ['a', 'b'] (by decide) (by decide)

/-- C9: the `slideLeft` preset's item hidden state sits at horizontal offset
20 and its shown state at 0, and `slideRight` mirrors it with hidden offset
-20 and shown offset 0. -/
theorem slide_presets_horizontal_offsets :
    ((defaultItemAnimationVariants AnimationVariant.slideLeft).item.hidden.x = some 20)
  ∧ (∀ c : ItemCustom,
        ((defaultItemAnimationVariants AnimationVariant.slideLeft).item.show' c).x = some 0)
  ∧ ((defaultItemAnimationVariants AnimationVariant.slideRight).item.hidden.x = some (-20))
  ∧ (∀ c : ItemCustom,
        ((defaultItemAnimationVariants AnimationVariant.slideRight).item.show' c).x
          = some 0) :=
  ⟨rfl, fun _ => rfl, rfl, fun _ => rfl⟩

/-- Witness for C9's theorem at a concrete stagger offset pair. -/
theorem slide_presets_horizontal_offsets_witness :
    ((defaultItemAnimationVariants AnimationVariant.slideLeft).item.show'
        { entryStaggerDelay := 0, exitStaggerDelay := 0 }).x = some 0 :=
  slide_presets_horizontal_offsets.2.1 { entryStaggerDelay := 0, exitStaggerDelay := 0 }

/-- C10: on the empty text, the text, word and line granularities each
produce exactly one segment, the empty string, while the character
granularity produces no segments at all. -/
theorem empty_input_segmentation :
    segmentText AnimationType.text [] = [[]]
  ∧ segmentText AnimationType.word [] = [[]]
  ∧ segmentText AnimationType.line [] = [[]]
  ∧ segmentText AnimationType.character [] = [] :=
  ⟨rfl, rfl, rfl, rfl⟩

end TextAnimateVerif
